import Mathlib

/-!
Shallow embedding of `src/infra/lambda/lambda_function.py` (Cloud-CV visitor
counter Lambda) and proofs about it.

Modelling choices, recorded once here:
* DynamoDB numbers come back through boto3 as Python `Decimal` objects, an
  arbitrary-precision decimal type; they are modelled exactly as `Rat`.
  Python `float(obj)` in `decimal_default` is likewise modelled as the exact
  rational value (`JScalar.jfloat`); IEEE rounding is not modelled, and no
  claim in scope depends on it.
* A DynamoDB item is a finite field map, modelled as an association list
  `Item = List (String × DBVal)`; the table is a list of items, unique per
  `id` key, with `put_item` replacing any item having the same `id`.
* Store failures (unreachable table) are injected through the `readFail` /
  `writeFail` fields of `StoreState`: `some msg` makes the corresponding
  call raise an exception whose text is `msg`.
* `datetime.utcnow()` is called three times per successful invocation; the
  three readings are supplied by a `Clock` record (t1 for `last_updated`,
  t2 for the stored epoch `timestamp`, t3 for the response body timestamp).
* `json.dumps(...)` of the flat body dicts is modelled structurally: the
  body of a `Response` is the list of serialized fields (`JObj`), in the
  order the Python dict literal writes them.
* Exceptions are modelled with `Except String`; the top-level
  `except Exception` corresponds to the `Except.error` branch in
  `lambda_handler`.  The `print` log emission has no observable effect on
  the returned value or the store and is not modelled.
* Exact Python exception texts (KeyError rendering, int() parse errors) are
  abbreviated; no claim depends on a specific text, only on the caught
  text being surfaced verbatim.
-/

/-- A scalar inside a serialized JSON body: string, integer, or float. -/
inductive JScalar where
  | jstr : String → JScalar
  | jint : Int → JScalar
  | jfloat : Rat → JScalar
  deriving DecidableEq, Repr

/-- A serialized flat JSON object, field order preserved. -/
abbrev JObj := List (String × JScalar)

/-- A value stored in a DynamoDB item attribute: number (Decimal) or string. -/
inductive DBVal where
  | num : Rat → DBVal
  | str : String → DBVal
  deriving DecidableEq, Repr

/-- A DynamoDB item: association list from attribute name to value. -/
abbrev Item := List (String × DBVal)

/-- One reading of `datetime.utcnow()`: its ISO-8601 rendering and its
truncated Unix epoch value. -/
structure Time where
  iso : String
  epoch : Int
  deriving DecidableEq, Repr

/-- The three successive `datetime.utcnow()` readings of one invocation. -/
structure Clock where
  t1 : Time
  t2 : Time
  t3 : Time
  deriving DecidableEq, Repr

/-- The API Gateway event dict: `event.get("httpMethod")` yields `none` when
the field is absent; all other fields are opaque to the handler. -/
structure Event where
  httpMethod : Option String
  extra : List (String × String)
  deriving DecidableEq, Repr

/-- The Lambda context argument; never inspected by the handler. -/
structure Context where
  info : List (String × String)
  deriving DecidableEq, Repr

/-- The DynamoDB table state plus fault injection for unreachability:
`readFail = some msg` makes `get_item` raise with text `msg`, and
`writeFail` likewise for `put_item`. -/
structure StoreState where
  items : List Item
  readFail : Option String
  writeFail : Option String
  deriving DecidableEq, Repr

/-- The API Gateway response envelope; the JSON-encoded body string is
modelled structurally as the serialized object. -/
structure Response where
  statusCode : Int
  headers : List (String × String)
  body : JObj
  deriving DecidableEq, Repr

/-- A value appearing in a Python dict handed to `json.dumps`. -/
inductive PyVal where
  | str : String → PyVal
  | int : Int → PyVal
  | dec : Rat → PyVal
  deriving DecidableEq, Repr

/-- Python `int()` applied to a Decimal: truncation toward zero. -/
def pyTrunc (q : Rat) : Int := Int.tdiv q.num (q.den : Int)

/-- Python `int()` applied to a stored attribute value, as in
`int(response["Item"]["count"])`: a Decimal truncates toward zero, a string
parses or raises ValueError. -/
def pyInt : DBVal → Except String Int
  | DBVal.num q => Except.ok (pyTrunc q)
  | DBVal.str s =>
    match s.toInt? with
    | some n => Except.ok n
    | none => Except.error ("invalid literal for int() with base 10: " ++ s)

/-- `decimal_default(obj)`: convert a Decimal to int when integral
(`obj % 1 == 0`), else to float. -/
def decimal_default (q : Rat) : JScalar :=
  if q.den = 1 then JScalar.jint q.num else JScalar.jfloat q

/-- How `json.dumps(..., default=decimal_default)` serializes one value:
strings and ints directly, Decimals through `decimal_default`. -/
def dumpsVal : PyVal → JScalar
  | PyVal.str s => JScalar.jstr s
  | PyVal.int n => JScalar.jint n
  | PyVal.dec q => decimal_default q

/-- `json.dumps` of a flat dict, field order preserved. -/
def json_dumps (obj : List (String × PyVal)) : JObj :=
  obj.map (fun p => (p.1, dumpsVal p.2))

/-- Whether an item carries the given partition key in its `id` attribute. -/
def hasId (key : String) (it : Item) : Bool :=
  match it.lookup "id" with
  | some (DBVal.str s) => s == key
  | _ => false

/-- `table.get_item(Key={"id": key})`: raises when the store is unreachable,
else returns the item when present (`"Item" in response`). -/
def get_item (s : StoreState) (key : String) : Except String (Option Item) :=
  match s.readFail with
  | some msg => Except.error msg
  | none => Except.ok (s.items.find? (hasId key))

/-- `table.put_item(Item=it)`: raises when the store is unreachable, else
replaces wholesale any item with the same `id` key. -/
def put_item (s : StoreState) (it : Item) : Except String StoreState :=
  match s.writeFail with
  | some msg => Except.error msg
  | none =>
    match it.lookup "id" with
    | some (DBVal.str key) =>
      Except.ok { s with items := it :: s.items.filter (fun j => !(hasId key j)) }
    | _ => Except.error "Missing the key id in the item"

/-- The full record written by the handler on success:
`{"id": "visitor_count", "count": new_count, "last_updated": iso,
"timestamp": epoch}`. -/
def counterItem (new_count : Int) (clock : Clock) : Item :=
  [("id", DBVal.str "visitor_count"),
   ("count", DBVal.num (new_count : Rat)),
   ("last_updated", DBVal.str clock.t1.iso),
   ("timestamp", DBVal.num (clock.t2.epoch : Rat))]

/-- `current_count` extraction: 0 when the item is absent, else
`int(response["Item"]["count"])`, where a missing `count` attribute raises
KeyError. -/
def readCount : Option Item → Except String Int
  | some item =>
    match item.lookup "count" with
    | some v => pyInt v
    | none => Except.error "KeyError: count"
  | none => Except.ok 0

/-- The CORS preflight response returned for OPTIONS requests. -/
def preflightResponse : Response :=
  { statusCode := 200,
    headers := [("Access-Control-Allow-Origin", "*"),
                ("Access-Control-Allow-Headers", "Content-Type"),
                ("Access-Control-Allow-Methods", "GET, POST, OPTIONS")],
    body := json_dumps [("message", PyVal.str "CORS preflight")] }

/-- The success response for a given new count and clock. -/
def successResponse (new_count : Int) (clock : Clock) : Response :=
  { statusCode := 200,
    headers := [("Access-Control-Allow-Origin", "*"),
                ("Access-Control-Allow-Headers", "Content-Type"),
                ("Access-Control-Allow-Methods", "GET, POST, OPTIONS"),
                ("Content-Type", "application/json")],
    body := json_dumps [("visitor_count", PyVal.int new_count),
                        ("timestamp", PyVal.str clock.t3.iso),
                        ("status", PyVal.str "success")] }

/-- The generic error response built in the `except` block from the raised
exception text. -/
def errorResponse (msg : String) : Response :=
  { statusCode := 500,
    headers := [("Access-Control-Allow-Origin", "*"),
                ("Content-Type", "application/json")],
    body := json_dumps [("error", PyVal.str "Internal server error"),
                        ("message", PyVal.str msg),
                        ("status", PyVal.str "error")] }

/-- The body of the `try` block after the OPTIONS check: read the counter
record, increment, persist the full new record, build the success response.
Any raised exception propagates as `Except.error`.  No step after the write
can raise, so an error always leaves the store unchanged. -/
def handlerCore (clock : Clock) (s : StoreState) :
    Except String (Response × StoreState) :=
  match get_item s "visitor_count" with
  | Except.error e => Except.error e
  | Except.ok optItem =>
    match readCount optItem with
    | Except.error e => Except.error e
    | Except.ok current_count =>
      let new_count := current_count + 1
      match put_item s (counterItem new_count clock) with
      | Except.error e => Except.error e
      | Except.ok s2 => Except.ok (successResponse new_count clock, s2)

/-- `lambda_handler(event, context)`: OPTIONS short-circuits to the preflight
response before any store access; otherwise the counter path runs and any
exception is caught into the generic 500 response, store unchanged. -/
def lambda_handler (event : Event) (_context : Context) (clock : Clock)
    (s : StoreState) : Response × StoreState :=
  if event.httpMethod = some "OPTIONS" then
    (preflightResponse, s)
  else
    match handlerCore clock s with
    | Except.ok r => r
    | Except.error e => (errorResponse e, s)

/-- The store before any invocation: no record, store reachable. -/
def emptyStore : StoreState :=
  { items := [], readFail := none, writeFail := none }

/-- A reachable store holding exactly the given item. -/
def storeWith (it : Item) : StoreState :=
  { items := [it], readFail := none, writeFail := none }

/-- Store state after k sequential invocations of the handler on the same
event, the i-th invocation using clock `clocks i`. -/
def runSeq (e : Event) (ctx : Context) (clocks : Nat → Clock)
    (s : StoreState) : Nat → StoreState
  | 0 => s
  | k + 1 => (lambda_handler e ctx (clocks k) (runSeq e ctx clocks s k)).2

/-- Response of invocation number k+1 (0-indexed k) in the sequential run. -/
def respAt (e : Event) (ctx : Context) (clocks : Nat → Clock)
    (s : StoreState) (k : Nat) : Response :=
  (lambda_handler e ctx (clocks k) (runSeq e ctx clocks s k)).1

/-- Look up a field of the serialized response body. -/
def bodyField (r : Response) (f : String) : Option JScalar :=
  r.body.lookup f

theorem pyTrunc_intCast (n : Int) : pyTrunc (n : Rat) = n := by
  simp [pyTrunc, Rat.num_intCast, Rat.den_intCast, Int.tdiv_one]

theorem readCount_counterItem (n : Int) (ck : Clock) :
    readCount (some (counterItem n ck)) = Except.ok n := by
  show pyInt (DBVal.num (n : Rat)) = Except.ok n
  simp [pyInt, pyTrunc_intCast]

theorem find_counterItem (n : Int) (ck : Clock) :
    List.find? (hasId "visitor_count") [counterItem n ck]
      = some (counterItem n ck) := rfl

theorem hasId_counterItem (n : Int) (ck : Clock) :
    hasId "visitor_count" (counterItem n ck) = true := rfl

theorem bodyField_success (n : Int) (clock : Clock) :
    bodyField (successResponse n clock) "visitor_count"
      = some (JScalar.jint n) := rfl

/-- One non-OPTIONS invocation on a reachable store whose lookup yields
current count c returns the success response for c+1 and replaces the table
content with the single freshly written record. -/
theorem handler_step (e : Event) (ctx : Context) (clock : Clock)
    (items : List Item) (c : Int)
    (h : e.httpMethod ≠ some "OPTIONS")
    (hc : readCount (items.find? (hasId "visitor_count")) = Except.ok c) :
    lambda_handler e ctx clock
        { items := items, readFail := none, writeFail := none } =
      (successResponse (c + 1) clock,
       { items := counterItem (c + 1) clock ::
                    items.filter (fun j => !(hasId "visitor_count" j)),
         readFail := none, writeFail := none }) := by
  simp only [lambda_handler, if_neg h, handlerCore, get_item]
  rw [hc]
  rfl

/-- One non-OPTIONS invocation on a store holding exactly one counter record
with count c0 replaces it wholesale by the record with count c0+1. -/
theorem handler_step_single (e : Event) (ctx : Context) (clock : Clock)
    (ck : Clock) (c0 : Int) (h : e.httpMethod ≠ some "OPTIONS") :
    lambda_handler e ctx clock (storeWith (counterItem c0 ck)) =
      (successResponse (c0 + 1) clock,
       storeWith (counterItem (c0 + 1) clock)) := by
  show lambda_handler e ctx clock
      { items := [counterItem c0 ck], readFail := none, writeFail := none } = _
  rw [handler_step e ctx clock [counterItem c0 ck] c0 h
        (by rw [find_counterItem, readCount_counterItem])]
  rfl

/-- Store state after k+1 sequential non-OPTIONS invocations from the empty
store: exactly one record, with count k+1 and the latest clock fields. -/
theorem runSeq_emptyStore (e : Event) (ctx : Context) (clocks : Nat → Clock)
    (h : e.httpMethod ≠ some "OPTIONS") :
    ∀ k : Nat, runSeq e ctx clocks emptyStore (k + 1)
      = storeWith (counterItem ((k : Int) + 1) (clocks k)) := by
  intro k
  induction k with
  | zero =>
    show (lambda_handler e ctx (clocks 0)
        { items := ([] : List Item), readFail := none, writeFail := none }).2 = _
    rw [handler_step e ctx (clocks 0) [] 0 h rfl]
    norm_num [storeWith]
  | succ j ih =>
    show (lambda_handler e ctx (clocks (j + 1))
            (runSeq e ctx clocks emptyStore (j + 1))).2 = _
    rw [ih, handler_step_single e ctx (clocks (j + 1)) (clocks j) ((j : Int) + 1) h]
    push_cast
    ring_nf

/-- C1: for every N, starting from the empty store, N sequential non-OPTIONS
invocations of lambda_handler give, for each k (0-indexed here, so
invocation k+1), a response whose body visitor_count equals k+1; after that
invocation the store holds exactly one record under key visitor_count, the
whole record freshly written with count = k+1. -/
theorem counter_sequence_from_empty (e : Event) (ctx : Context)
    (clocks : Nat → Clock) (h : e.httpMethod ≠ some "OPTIONS") (k : Nat) :
    bodyField (respAt e ctx clocks emptyStore k) "visitor_count"
      = some (JScalar.jint ((k : Int) + 1))
    ∧ runSeq e ctx clocks emptyStore (k + 1)
      = storeWith (counterItem ((k : Int) + 1) (clocks k)) := by
  refine ⟨?_, runSeq_emptyStore e ctx clocks h k⟩
  unfold respAt
  cases k with
  | zero =>
    show bodyField (lambda_handler e ctx (clocks 0)
        { items := ([] : List Item), readFail := none, writeFail := none }).1
        "visitor_count" = _
    rw [handler_step e ctx (clocks 0) [] 0 h rfl]
    show bodyField (successResponse ((0 : Int) + 1) (clocks 0)) _ = _
    rw [bodyField_success]
    norm_num
  | succ j =>
    rw [runSeq_emptyStore e ctx clocks h j,
      handler_step_single e ctx (clocks (j + 1)) (clocks j) ((j : Int) + 1) h]
    show bodyField (successResponse ((j : Int) + 1 + 1) (clocks (j + 1))) _ = _
    rw [bodyField_success]
    push_cast
    ring_nf

/-- Closed instance of C1 at k = 2 discharging its hypothesis. -/
theorem counter_sequence_from_empty_witness :
    (⟨some "GET", []⟩ : Event).httpMethod ≠ some "OPTIONS"
    ∧ (bodyField
        (respAt ⟨some "GET", []⟩ ⟨[]⟩
          (fun i => ⟨⟨"a", (i : Int)⟩, ⟨"b", 0⟩, ⟨"c", 0⟩⟩) emptyStore 2)
        "visitor_count" = some (JScalar.jint ((2 : Nat) + 1))
      ∧ runSeq ⟨some "GET", []⟩ ⟨[]⟩
          (fun i => ⟨⟨"a", (i : Int)⟩, ⟨"b", 0⟩, ⟨"c", 0⟩⟩) emptyStore (2 + 1)
        = { items := [counterItem (((2 : Nat) : Int) + 1)
                        ⟨⟨"a", (2 : Int)⟩, ⟨"b", 0⟩, ⟨"c", 0⟩⟩],
            readFail := none, writeFail := none }) :=
  ⟨by decide,
   counter_sequence_from_empty ⟨some "GET", []⟩ ⟨[]⟩
     (fun i => ⟨⟨"a", (i : Int)⟩, ⟨"b", 0⟩, ⟨"c", 0⟩⟩) (by decide) 2⟩

/-- C2: for every OPTIONS event and every store state, available or not, the
handler returns the fixed preflight response (status 200, the three CORS
headers, the literal body) and the store is untouched: the OPTIONS check
runs before any store access. -/
theorem options_preflight (e : Event) (ctx : Context) (clock : Clock)
    (s : StoreState) (h : e.httpMethod = some "OPTIONS") :
    lambda_handler e ctx clock s = (preflightResponse, s)
    ∧ preflightResponse.statusCode = 200
    ∧ preflightResponse.headers
        = [("Access-Control-Allow-Origin", "*"),
           ("Access-Control-Allow-Headers", "Content-Type"),
           ("Access-Control-Allow-Methods", "GET, POST, OPTIONS")]
    ∧ preflightResponse.body = [("message", JScalar.jstr "CORS preflight")] := by
  refine ⟨?_, rfl, rfl, rfl⟩
  simp [lambda_handler, h]

/-- Closed instance of C2 on a fully unavailable store. -/
theorem options_preflight_witness :
    (⟨some "OPTIONS", []⟩ : Event).httpMethod = some "OPTIONS"
    ∧ (lambda_handler ⟨some "OPTIONS", []⟩ ⟨[]⟩ ⟨⟨"a", 0⟩, ⟨"b", 0⟩, ⟨"c", 0⟩⟩
          ⟨[], some "store down", some "store down"⟩
        = (preflightResponse, ⟨[], some "store down", some "store down"⟩)
      ∧ preflightResponse.statusCode = 200
      ∧ preflightResponse.headers
          = [("Access-Control-Allow-Origin", "*"),
             ("Access-Control-Allow-Headers", "Content-Type"),
             ("Access-Control-Allow-Methods", "GET, POST, OPTIONS")]
      ∧ preflightResponse.body = [("message", JScalar.jstr "CORS preflight")]) :=
  ⟨rfl, options_preflight ⟨some "OPTIONS", []⟩ ⟨[]⟩ ⟨⟨"a", 0⟩, ⟨"b", 0⟩, ⟨"c", 0⟩⟩
      ⟨[], some "store down", some "store down"⟩ rfl⟩

/-- C3: for every non-OPTIONS event, when the store read raises, the handler
returns status 500 with body status field error, and the store state is
unchanged: no write was performed. -/
theorem read_failure_returns_500 (e : Event) (ctx : Context) (clock : Clock)
    (s : StoreState) (msg : String) (h : e.httpMethod ≠ some "OPTIONS")
    (hr : s.readFail = some msg) :
    (lambda_handler e ctx clock s).1.statusCode = 500
    ∧ bodyField (lambda_handler e ctx clock s).1 "status"
        = some (JScalar.jstr "error")
    ∧ (lambda_handler e ctx clock s).2 = s := by
  have hh : lambda_handler e ctx clock s = (errorResponse msg, s) := by
    simp [lambda_handler, if_neg h, handlerCore, get_item, hr]
  rw [hh]
  exact ⟨rfl, rfl, rfl⟩

/-- Closed instance of C3 on a store whose read raises. -/
theorem read_failure_returns_500_witness :
    ((⟨some "GET", []⟩ : Event).httpMethod ≠ some "OPTIONS"
      ∧ (⟨[], some "store down", none⟩ : StoreState).readFail = some "store down")
    ∧ ((lambda_handler ⟨some "GET", []⟩ ⟨[]⟩ ⟨⟨"a", 0⟩, ⟨"b", 0⟩, ⟨"c", 0⟩⟩
          ⟨[], some "store down", none⟩).1.statusCode = 500
      ∧ bodyField (lambda_handler ⟨some "GET", []⟩ ⟨[]⟩ ⟨⟨"a", 0⟩, ⟨"b", 0⟩, ⟨"c", 0⟩⟩
          ⟨[], some "store down", none⟩).1 "status" = some (JScalar.jstr "error")
      ∧ (lambda_handler ⟨some "GET", []⟩ ⟨[]⟩ ⟨⟨"a", 0⟩, ⟨"b", 0⟩, ⟨"c", 0⟩⟩
          ⟨[], some "store down", none⟩).2 = ⟨[], some "store down", none⟩) :=
  ⟨⟨by decide, rfl⟩,
   read_failure_returns_500 ⟨some "GET", []⟩ ⟨[]⟩ ⟨⟨"a", 0⟩, ⟨"b", 0⟩, ⟨"c", 0⟩⟩
     ⟨[], some "store down", none⟩ "store down" (by decide) rfl⟩

/-- Every success result of the core path carries a success response. -/
theorem handlerCore_ok_shape (clock : Clock) (s : StoreState)
    (p : Response × StoreState) (h : handlerCore clock s = Except.ok p) :
    ∃ n, p.1 = successResponse n clock := by
  simp only [handlerCore] at h
  split at h
  · exact absurd h (by simp)
  · split at h
    · exact absurd h (by simp)
    · split at h
      · exact absurd h (by simp)
      · exact ⟨_, by injection h with h2; rw [← h2]⟩

/-- C5: for every input event and every outcome, preflight or success or
error, the response headers contain Access-Control-Allow-Origin: *. -/
theorem cors_origin_always (e : Event) (ctx : Context) (clock : Clock)
    (s : StoreState) :
    ("Access-Control-Allow-Origin", "*") ∈ (lambda_handler e ctx clock s).1.headers := by
  unfold lambda_handler
  by_cases h : e.httpMethod = some "OPTIONS"
  · simp [h, preflightResponse]
  · simp only [if_neg h]
    cases hc : handlerCore clock s with
    | error msg => simp [hc, errorResponse]
    | ok p =>
      obtain ⟨n, hp⟩ := handlerCore_ok_shape clock s p hc
      simp [hc, hp, successResponse]

/-- C6: handling a non-OPTIONS request is not idempotent: from a store whose
counter record holds count n-1, the same request performed twice yields
visitor_count n then n+1, two different values. -/
theorem not_idempotent (e : Event) (ctx : Context) (c0 c1 c2 : Clock)
    (n : Int) (h : e.httpMethod ≠ some "OPTIONS") :
    bodyField (lambda_handler e ctx c1 (storeWith (counterItem (n - 1) c0))).1
        "visitor_count" = some (JScalar.jint n)
    ∧ bodyField (lambda_handler e ctx c2
          (lambda_handler e ctx c1 (storeWith (counterItem (n - 1) c0))).2).1
        "visitor_count" = some (JScalar.jint (n + 1))
    ∧ bodyField (lambda_handler e ctx c1 (storeWith (counterItem (n - 1) c0))).1
          "visitor_count"
        ≠ bodyField (lambda_handler e ctx c2
            (lambda_handler e ctx c1 (storeWith (counterItem (n - 1) c0))).2).1
          "visitor_count" := by
  have hn : n - 1 + 1 = n := by ring
  have h1 := handler_step_single e ctx c1 c0 (n - 1) h
  rw [hn] at h1
  have h2 := handler_step_single e ctx c2 c1 n h
  simp only [h1, h2, bodyField_success, ne_eq, Option.some.injEq, JScalar.jint.injEq]
  exact ⟨trivial, trivial, by omega⟩

/-- Closed instance of C6 at n = 5. -/
theorem not_idempotent_witness :
    (⟨some "POST", []⟩ : Event).httpMethod ≠ some "OPTIONS"
    ∧ (bodyField (lambda_handler ⟨some "POST", []⟩ ⟨[]⟩ ⟨⟨"d", 1⟩, ⟨"e", 1⟩, ⟨"f", 1⟩⟩
          (storeWith (counterItem ((5 : Int) - 1) ⟨⟨"a", 0⟩, ⟨"b", 0⟩, ⟨"c", 0⟩⟩))).1
        "visitor_count" = some (JScalar.jint 5)
      ∧ bodyField (lambda_handler ⟨some "POST", []⟩ ⟨[]⟩ ⟨⟨"g", 2⟩, ⟨"h", 2⟩, ⟨"i", 2⟩⟩
            (lambda_handler ⟨some "POST", []⟩ ⟨[]⟩ ⟨⟨"d", 1⟩, ⟨"e", 1⟩, ⟨"f", 1⟩⟩
              (storeWith (counterItem ((5 : Int) - 1) ⟨⟨"a", 0⟩, ⟨"b", 0⟩, ⟨"c", 0⟩⟩))).2).1
          "visitor_count" = some (JScalar.jint ((5 : Int) + 1))
      ∧ bodyField (lambda_handler ⟨some "POST", []⟩ ⟨[]⟩ ⟨⟨"d", 1⟩, ⟨"e", 1⟩, ⟨"f", 1⟩⟩
            (storeWith (counterItem ((5 : Int) - 1) ⟨⟨"a", 0⟩, ⟨"b", 0⟩, ⟨"c", 0⟩⟩))).1
            "visitor_count"
          ≠ bodyField (lambda_handler ⟨some "POST", []⟩ ⟨[]⟩ ⟨⟨"g", 2⟩, ⟨"h", 2⟩, ⟨"i", 2⟩⟩
              (lambda_handler ⟨some "POST", []⟩ ⟨[]⟩ ⟨⟨"d", 1⟩, ⟨"e", 1⟩, ⟨"f", 1⟩⟩
                (storeWith (counterItem ((5 : Int) - 1) ⟨⟨"a", 0⟩, ⟨"b", 0⟩, ⟨"c", 0⟩⟩))).2).1
            "visitor_count") :=
  ⟨by decide,
   not_idempotent ⟨some "POST", []⟩ ⟨[]⟩ ⟨⟨"a", 0⟩, ⟨"b", 0⟩, ⟨"c", 0⟩⟩
     ⟨⟨"d", 1⟩, ⟨"e", 1⟩, ⟨"f", 1⟩⟩ ⟨⟨"g", 2⟩, ⟨"h", 2⟩, ⟨"i", 2⟩⟩ 5 (by decide)⟩

/-- C7: every exception raised on the non-OPTIONS path, whatever its cause,
collapses to the one generic outcome: the 500 response whose body carries
error Internal server error, status error, and the raised text verbatim as
message; the store is left as it was and nothing else is returned. -/
theorem failures_collapse_to_500 (e : Event) (ctx : Context) (clock : Clock)
    (s : StoreState) (msg : String) (h : e.httpMethod ≠ some "OPTIONS")
    (hf : handlerCore clock s = Except.error msg) :
    lambda_handler e ctx clock s = (errorResponse msg, s)
    ∧ (errorResponse msg).statusCode = 500
    ∧ bodyField (errorResponse msg) "error"
        = some (JScalar.jstr "Internal server error")
    ∧ bodyField (errorResponse msg) "message" = some (JScalar.jstr msg)
    ∧ bodyField (errorResponse msg) "status" = some (JScalar.jstr "error") := by
  refine ⟨?_, rfl, rfl, rfl, rfl⟩
  simp [lambda_handler, if_neg h, hf]

/-- Closed instance of C7 with an unreachable store raising text boom. -/
theorem failures_collapse_to_500_witness :
    ((⟨some "GET", []⟩ : Event).httpMethod ≠ some "OPTIONS"
      ∧ handlerCore ⟨⟨"a", 0⟩, ⟨"b", 0⟩, ⟨"c", 0⟩⟩ ⟨[], some "boom", none⟩
          = Except.error "boom")
    ∧ (lambda_handler ⟨some "GET", []⟩ ⟨[]⟩ ⟨⟨"a", 0⟩, ⟨"b", 0⟩, ⟨"c", 0⟩⟩
          ⟨[], some "boom", none⟩
        = (errorResponse "boom", ⟨[], some "boom", none⟩)
      ∧ (errorResponse "boom").statusCode = 500
      ∧ bodyField (errorResponse "boom") "error"
          = some (JScalar.jstr "Internal server error")
      ∧ bodyField (errorResponse "boom") "message" = some (JScalar.jstr "boom")
      ∧ bodyField (errorResponse "boom") "status" = some (JScalar.jstr "error")) :=
  ⟨⟨by decide, rfl⟩,
   failures_collapse_to_500 ⟨some "GET", []⟩ ⟨[]⟩ ⟨⟨"a", 0⟩, ⟨"b", 0⟩, ⟨"c", 0⟩⟩
     ⟨[], some "boom", none⟩ "boom" (by decide) rfl⟩

/-- C8: an event with no httpMethod field at all, or any method other than
OPTIONS, does not raise and takes exactly the counter-increment path of a
GET request. -/
theorem missing_method_increments (om : Option String)
    (extra : List (String × String)) (ctx : Context) (clock : Clock)
    (s : StoreState) (h : om ≠ some "OPTIONS") :
    lambda_handler ⟨om, extra⟩ ctx clock s
      = lambda_handler ⟨some "GET", extra⟩ ctx clock s := by
  simp [lambda_handler, h]

/-- Closed instance of C8 for an event lacking httpMethod entirely. -/
theorem missing_method_increments_witness :
    (none ≠ some "OPTIONS")
    ∧ lambda_handler ⟨none, [("path", "/count")]⟩ ⟨[]⟩
        ⟨⟨"a", 0⟩, ⟨"b", 0⟩, ⟨"c", 0⟩⟩ emptyStore
      = lambda_handler ⟨some "GET", [("path", "/count")]⟩ ⟨[]⟩
          ⟨⟨"a", 0⟩, ⟨"b", 0⟩, ⟨"c", 0⟩⟩ emptyStore :=
  ⟨by decide,
   missing_method_increments none [("path", "/count")] ⟨[]⟩
     ⟨⟨"a", 0⟩, ⟨"b", 0⟩, ⟨"c", 0⟩⟩ emptyStore (by decide)⟩

/-- C9: no non-negativity check exists: for any stored integer count c,
negative included, a non-OPTIONS invocation succeeds with status 200,
returns visitor_count c+1 and persists count c+1. -/
theorem negative_count_unvalidated (e : Event) (ctx : Context)
    (c0 clock : Clock) (c : Int) (h : e.httpMethod ≠ some "OPTIONS") :
    (lambda_handler e ctx clock (storeWith (counterItem c c0))).1.statusCode = 200
    ∧ bodyField (lambda_handler e ctx clock (storeWith (counterItem c c0))).1
        "visitor_count" = some (JScalar.jint (c + 1))
    ∧ (lambda_handler e ctx clock (storeWith (counterItem c c0))).2
        = storeWith (counterItem (c + 1) clock) := by
  have h1 := handler_step_single e ctx clock c0 c h
  refine ⟨?_, ?_, ?_⟩ <;> rw [h1]
  · rfl
  · rfl

/-- Closed instance of C9 at stored count -7. -/
theorem negative_count_unvalidated_witness :
    (⟨some "GET", []⟩ : Event).httpMethod ≠ some "OPTIONS"
    ∧ ((lambda_handler ⟨some "GET", []⟩ ⟨[]⟩ ⟨⟨"d", 1⟩, ⟨"e", 1⟩, ⟨"f", 1⟩⟩
          (storeWith (counterItem (-7) ⟨⟨"a", 0⟩, ⟨"b", 0⟩, ⟨"c", 0⟩⟩))).1.statusCode = 200
      ∧ bodyField (lambda_handler ⟨some "GET", []⟩ ⟨[]⟩ ⟨⟨"d", 1⟩, ⟨"e", 1⟩, ⟨"f", 1⟩⟩
          (storeWith (counterItem (-7) ⟨⟨"a", 0⟩, ⟨"b", 0⟩, ⟨"c", 0⟩⟩))).1
          "visitor_count" = some (JScalar.jint ((-7 : Int) + 1))
      ∧ (lambda_handler ⟨some "GET", []⟩ ⟨[]⟩ ⟨⟨"d", 1⟩, ⟨"e", 1⟩, ⟨"f", 1⟩⟩
          (storeWith (counterItem (-7) ⟨⟨"a", 0⟩, ⟨"b", 0⟩, ⟨"c", 0⟩⟩))).2
          = storeWith (counterItem ((-7 : Int) + 1) ⟨⟨"d", 1⟩, ⟨"e", 1⟩, ⟨"f", 1⟩⟩)) :=
  ⟨by decide,
   negative_count_unvalidated ⟨some "GET", []⟩ ⟨[]⟩ ⟨⟨"a", 0⟩, ⟨"b", 0⟩, ⟨"c", 0⟩⟩
     ⟨⟨"d", 1⟩, ⟨"e", 1⟩, ⟨"f", 1⟩⟩ (-7) (by decide)⟩

/-- C10: two events with the same httpMethod, any other event fields and any
context arguments, same clock and store, produce identical results. -/
theorem only_method_matters (e1 e2 : Event) (ctx1 ctx2 : Context)
    (clock : Clock) (s : StoreState) (h : e1.httpMethod = e2.httpMethod) :
    lambda_handler e1 ctx1 clock s = lambda_handler e2 ctx2 clock s := by
  unfold lambda_handler
  rw [h]

/-- Closed instance of C10: events differing in every field but the method,
and different contexts, yield the same result. -/
theorem only_method_matters_witness :
    (⟨some "GET", [("path", "/a")]⟩ : Event).httpMethod
        = (⟨some "GET", [("path", "/b"), ("stage", "prod")]⟩ : Event).httpMethod
    ∧ lambda_handler ⟨some "GET", [("path", "/a")]⟩ ⟨[("fn", "x")]⟩
        ⟨⟨"a", 0⟩, ⟨"b", 0⟩, ⟨"c", 0⟩⟩ emptyStore
      = lambda_handler ⟨some "GET", [("path", "/b"), ("stage", "prod")]⟩ ⟨[("fn", "y")]⟩
          ⟨⟨"a", 0⟩, ⟨"b", 0⟩, ⟨"c", 0⟩⟩ emptyStore :=
  ⟨rfl,
   only_method_matters ⟨some "GET", [("path", "/a")]⟩
     ⟨some "GET", [("path", "/b"), ("stage", "prod")]⟩ ⟨[("fn", "x")]⟩ ⟨[("fn", "y")]⟩
     ⟨⟨"a", 0⟩, ⟨"b", 0⟩, ⟨"c", 0⟩⟩ emptyStore rfl⟩

/-- Refutation of C4 as stated: with the stored count the fractional Decimal
5.5, the response visitor_count is the integer 6 (int() truncates the
Decimal on read), not the floating-point 5.5: decimal_default never sees
the count because json.dumps receives only plain ints and strings. -/
theorem fractional_count_counterexample :
    bodyField (lambda_handler ⟨some "GET", []⟩ ⟨[]⟩ ⟨⟨"a", 0⟩, ⟨"b", 0⟩, ⟨"c", 0⟩⟩
        (storeWith [("id", DBVal.str "visitor_count"),
                    ("count", DBVal.num (mkRat 11 2))])).1 "visitor_count"
      = some (JScalar.jint 6)
    ∧ bodyField (lambda_handler ⟨some "GET", []⟩ ⟨[]⟩ ⟨⟨"a", 0⟩, ⟨"b", 0⟩, ⟨"c", 0⟩⟩
        (storeWith [("id", DBVal.str "visitor_count"),
                    ("count", DBVal.num (mkRat 11 2))])).1 "visitor_count"
      ≠ some (JScalar.jfloat (mkRat 11 2)) := by
  constructor <;> decide

/-- C4 amended: the stored Decimal count is converted with int() on read,
truncating toward zero, so for any stored decimal q a non-OPTIONS
invocation returns visitor_count as the integer trunc(q) + 1; a fractional
stored value such as 5.5 yields the integer 6, never a floating-point in
the response. -/
theorem stored_decimal_truncated (e : Event) (ctx : Context) (clock : Clock)
    (q : Rat) (h : e.httpMethod ≠ some "OPTIONS") :
    bodyField (lambda_handler e ctx clock
        (storeWith [("id", DBVal.str "visitor_count"),
                    ("count", DBVal.num q)])).1 "visitor_count"
      = some (JScalar.jint (pyTrunc q + 1)) := by
  have h1 := handler_step e ctx clock
    [[("id", DBVal.str "visitor_count"), ("count", DBVal.num q)]] (pyTrunc q) h rfl
  show bodyField (lambda_handler e ctx clock
      { items := [[("id", DBVal.str "visitor_count"), ("count", DBVal.num q)]],
        readFail := none, writeFail := none }).1 "visitor_count" = _
  rw [h1]
  rfl

/-- Closed instance of the amended C4 at stored count 5.5. -/
theorem stored_decimal_truncated_witness :
    (⟨some "GET", []⟩ : Event).httpMethod ≠ some "OPTIONS"
    ∧ bodyField (lambda_handler ⟨some "GET", []⟩ ⟨[]⟩ ⟨⟨"a", 0⟩, ⟨"b", 0⟩, ⟨"c", 0⟩⟩
        (storeWith [("id", DBVal.str "visitor_count"),
                    ("count", DBVal.num (mkRat 11 2))])).1 "visitor_count"
      = some (JScalar.jint (pyTrunc (mkRat 11 2) + 1)) :=
  ⟨by decide,
   stored_decimal_truncated ⟨some "GET", []⟩ ⟨[]⟩ ⟨⟨"a", 0⟩, ⟨"b", 0⟩, ⟨"c", 0⟩⟩
     (mkRat 11 2) (by decide)⟩
